import Mathlib

/-!
# Verification of the AviaConnector SDK connection/dispatch layer

Shallow embedding of the TypeScript sources:

* `src/transport.ts` — `WebSocketTransport` (reconnecting initiator state machine)
* `src/types.ts` / `src/protocol.ts` — envelope codec (`defaultParseMessage`)
* the registry-style `AviaConnectorServer` (multi-client, auth / subscribe /
  upstream-liveness gating; `src/unnamed/part_001`, first class)
* the simplified callback-based `AviaConnectorServer`
  (`src/server/AviaConnectorServer.ts`)

JavaScript runtime values that flow through these functions are modelled by
the `Json` type below; `undefined` is modelled as `Option.none` wherever a
value can be absent.  Code that can throw a `TypeError` (member access on
`undefined`/`null`) is modelled in the `Except String` monad.
-/

/-- JSON-compatible JavaScript value (numbers restricted to the integers
actually used by the protocol's control fields). -/
inductive Json where
  | null : Json
  | bool (b : Bool) : Json
  | num (n : Int) : Json
  | str (s : String) : Json
  | arr (elems : List Json) : Json
  | obj (fields : List (String × Json)) : Json

/-- First-match field lookup in a JS object literal. -/
def lookupField : List (String × Json) → String → Option Json
  | [], _ => none
  | (k, v) :: rest, key => if k = key then some v else lookupField rest key

/-- JS property access `v.k` on a value known to be defined and non-null:
objects yield the field (or `undefined`), primitives and arrays yield
`undefined` for the property names used by this code base. -/
def jsField (v : Json) (k : String) : Option Json :=
  match v with
  | .obj fs => lookupField fs k
  | _ => none

/-- JS optional-chain access `v?.k`: `undefined`/`null` propagate instead of
throwing. -/
def jsFieldOpt (v : Option Json) (k : String) : Option Json :=
  match v with
  | none => none
  | some .null => none
  | some j => jsField j k

/-- JS member access `v.k` that throws a `TypeError` when `v` is `undefined`
or `null`. -/
def jsMemberE (v : Option Json) (k : String) : Except String (Option Json) :=
  match v with
  | none => .error "TypeError: cannot read properties of undefined"
  | some .null => .error "TypeError: cannot read properties of null"
  | some j => .ok (jsField j k)

/-- JS truthiness of a defined value. -/
def jsTruthy : Json → Bool
  | .null => false
  | .bool b => b
  | .num n => n != 0
  | .str s => s ≠ ""
  | .arr _ => true
  | .obj _ => true

/-- JS truthiness of a possibly-`undefined` value. -/
def jsTruthyOpt : Option Json → Bool
  | none => false
  | some v => jsTruthy v

/-- JS falsiness (`!x`). -/
def jsFalsy (v : Option Json) : Bool := !jsTruthyOpt v

/-- JS nullish coalescing `a ?? b`. -/
def jsCoalesce (a b : Option Json) : Option Json :=
  match a with
  | none => b
  | some .null => b
  | some v => some v

/-- The guard `typeof x === "object" && x` used throughout the sources:
true exactly for non-null objects and arrays (`typeof null` is `"object"`
but `null` is falsy; `undefined` fails the `typeof` test). -/
def jsIsObjectTruthy : Option Json → Bool
  | some (.obj _) => true
  | some (.arr _) => true
  | _ => false

/-- `typeof x === "string"`. -/
def jsIsString : Option Json → Bool
  | some (.str _) => true
  | _ => false

mutual
/-- JS `String(v)` coercion as used by template literals. -/
def jsToDisplay : Json → String
  | .null => "null"
  | .bool true => "true"
  | .bool false => "false"
  | .num n => toString n
  | .str s => s
  | .arr xs => String.intercalate "," (jsToDisplayList xs)
  | .obj _ => "[object Object]"

def jsToDisplayList : List Json → List String
  | [] => []
  | x :: xs => jsToDisplay x :: jsToDisplayList xs
end

/-- Template-literal interpolation of a possibly-`undefined` value. -/
def jsTemplate : Option Json → String
  | none => "undefined"
  | some v => jsToDisplay v

/-- JS property-key coercion (`listeners[t]` with a non-string `t` looks up
the stringified key; `parseMessage` in fact always produces a string
`type`). -/
def jsKeyString : Option Json → String
  | none => "undefined"
  | some v => jsToDisplay v

/-- JS strict equality `v === "lit"` of a possibly-`undefined` value with a
string literal. -/
def jsIsStrVal (v : Option Json) (s : String) : Bool :=
  match v with
  | some (.str t) => t = s
  | _ => false

/-! ## A concrete JSON reader

`JSON.parse` is a host primitive; the codec theorems below are parametric in
it.  For evaluating the development on concrete frames we also provide a
small reader covering the JSON subset exercised by the protocol (it agrees
with `JSON.parse` on these inputs, and like `JSON.parse` it rejects anything
malformed). -/

def jsonWs (c : Char) : Bool := c = ' ' || c = '\n' || c = '\t' || c = '\r'

def skipJsonWs : List Char → List Char
  | [] => []
  | c :: cs => if jsonWs c then skipJsonWs cs else c :: cs

/-- Read a string literal body (escape sequences are rejected, as no frame in
this development uses them). -/
def readStringLit : List Char → Option (String × List Char)
  | [] => none
  | c :: cs =>
    if c = '"' then some ("", cs)
    else if c = '\\' then none
    else match readStringLit cs with
      | some (s, rest) => some (⟨c :: s.toList⟩, rest)
      | none => none

def readDigits : List Char → Nat → Option (Nat × List Char)
  | [], acc => some (acc, [])
  | c :: cs, acc =>
    if c.isDigit then readDigits cs (acc * 10 + (c.toNat - 48))
    else some (acc, c :: cs)

mutual

def readJsonVal : Nat → List Char → Option (Json × List Char)
  | 0, _ => none
  | fuel + 1, input =>
    match skipJsonWs input with
    | 'n' :: 'u' :: 'l' :: 'l' :: rest => some (.null, rest)
    | 't' :: 'r' :: 'u' :: 'e' :: rest => some (.bool true, rest)
    | 'f' :: 'a' :: 'l' :: 's' :: 'e' :: rest => some (.bool false, rest)
    | '"' :: rest =>
      match readStringLit rest with
      | some (s, rest') => some (.str s, rest')
      | none => none
    | '[' :: rest =>
      (match skipJsonWs rest with
       | ']' :: rest' => some (.arr [], rest')
       | other =>
         match readJsonItems fuel other with
         | some (xs, rest') => some (.arr xs, rest')
         | none => none)
    | '{' :: rest =>
      (match skipJsonWs rest with
       | '}' :: rest' => some (.obj [], rest')
       | other =>
         match readJsonFields fuel other with
         | some (fs, rest') => some (.obj fs, rest')
         | none => none)
    | '-' :: c :: rest =>
      if c.isDigit then
        match readDigits (c :: rest) 0 with
        | some (n, rest') => some (.num (-(n : Int)), rest')
        | none => none
      else none
    | c :: rest =>
      if c.isDigit then
        match readDigits (c :: rest) 0 with
        | some (n, rest') => some (.num (n : Int), rest')
        | none => none
      else none
    | [] => none

def readJsonItems : Nat → List Char → Option (List Json × List Char)
  | 0, _ => none
  | fuel + 1, input =>
    match readJsonVal fuel input with
    | some (v, rest) =>
      (match skipJsonWs rest with
       | ',' :: rest' =>
         (match readJsonItems fuel rest' with
          | some (xs, rest'') => some (v :: xs, rest'')
          | none => none)
       | ']' :: rest' => some ([v], rest')
       | _ => none)
    | none => none

def readJsonFields : Nat → List Char → Option (List (String × Json) × List Char)
  | 0, _ => none
  | fuel + 1, input =>
    match skipJsonWs input with
    | '"' :: rest =>
      (match readStringLit rest with
       | some (k, rest1) =>
         (match skipJsonWs rest1 with
          | ':' :: rest2 =>
            (match readJsonVal fuel rest2 with
             | some (v, rest3) =>
               (match skipJsonWs rest3 with
                | ',' :: rest4 =>
                  (match readJsonFields fuel rest4 with
                   | some (fs, rest5) => some ((k, v) :: fs, rest5)
                   | none => none)
                | '}' :: rest4 => some ([(k, v)], rest4)
                | _ => none)
             | none => none)
          | _ => none)
       | none => none)
    | _ => none

end

/-- Concrete model of `JSON.parse` on the protocol's JSON subset; malformed
input (where `JSON.parse` throws) yields `none`. -/
def jsonReadConcrete (s : String) : Option Json :=
  match readJsonVal (s.length + 1) s.toList with
  | some (v, rest) => if skipJsonWs rest = [] then some v else none
  | none => none

/-! ## Envelope codec (`src/types.ts` `rawToString`/`defaultParseMessage`,
and the simplified server's private `parseMessage`) -/

/-- The raw frame shapes accepted by both parse functions: text, a single
binary buffer (`Buffer` or `ArrayBuffer`), or a non-contiguous array of
binary chunks. -/
inductive RawData where
  | text (s : String)
  | buffer (bytes : List Nat)
  | arrayBuffer (bytes : List Nat)
  | chunks (bufs : List (List Nat))

/-- `rawToString` (src/types.ts): normalize a raw frame to text; an array of
chunks is concatenated (`Buffer.concat`) before decoding.  `utf8` stands for
the host's `Buffer.toString("utf8")`. -/
def rawToString (utf8 : List Nat → String) : RawData → String
  | .text s => s
  | .chunks bufs => utf8 bufs.flatten
  | .buffer bytes => utf8 bytes
  | .arrayBuffer bytes => utf8 bytes

/-- The check `obj && typeof obj.type === "string"`. -/
def isEnvelopeShaped (j : Json) : Bool :=
  jsTruthy j && jsIsString (jsField j "type")

/-- `defaultParseMessage` (src/types.ts): total decode with fallback type
`"raw"`.  `jsonParse` stands for the host `JSON.parse` (returning `none`
where it would throw). -/
def defaultParseMessage (jsonParse : String → Option Json)
    (utf8 : List Nat → String) (raw : RawData) : Json :=
  let text := rawToString utf8 raw
  match jsonParse text with
  | some obj =>
    if isEnvelopeShaped obj then obj
    else Json.obj [("type", .str "raw"), ("data", obj)]
  | none => Json.obj [("type", .str "raw"), ("data", .str text)]

/-- The simplified server's private `parseMessage`
(src/server/AviaConnectorServer.ts): identical decode, but the fallback
envelope type is `"unknown"`. -/
def SimpleServer.parseMessage (jsonParse : String → Option Json)
    (utf8 : List Nat → String) (raw : RawData) : Json :=
  let text := rawToString utf8 raw
  match jsonParse text with
  | some obj =>
    if isEnvelopeShaped obj then obj
    else Json.obj [("type", .str "unknown"), ("data", obj)]
  | none => Json.obj [("type", .str "unknown"), ("data", .str text)]

/-- Concrete byte decoder for witnesses (ASCII fragment of UTF-8). -/
def asciiDecode (bytes : List Nat) : String :=
  ⟨bytes.map Char.ofNat⟩

/-! ## Initiator connection state machine (`src/transport.ts`,
`WebSocketTransport`)

The class is embedded as an explicit state record plus a step function over
the events its handlers react to.  Delays are modelled as rationals
(`Math.floor` becomes `Rat.floor`).  A scheduled `setTimeout` reconnect
callback is recorded in `pendingReconnects`; nothing in `close()` touches it
because the source stores no handle for that timer. -/

structure TransportOpts where
  autoReconnect : Bool
  reconnectDelayMs : ℚ
  maxReconnectDelayMs : ℚ
  reconnectBackoffFactor : ℚ
  idleTimeoutMs : ℚ

/-- Constructor defaults (`autoReconnect ?? true`, `reconnectDelayMs ?? 1000`,
`maxReconnectDelayMs ?? 15000`, `reconnectBackoffFactor ?? 1.8`,
`idleTimeoutMs ?? 30000`); rationals are built with `mkRat` to keep them
kernel-computable. -/
def TransportOpts.defaults : TransportOpts :=
  { autoReconnect := true
    reconnectDelayMs := mkRat 1000 1
    maxReconnectDelayMs := mkRat 15000 1
    reconnectBackoffFactor := mkRat 9 5
    idleTimeoutMs := mkRat 30000 1 }

/-- `Math.min` on rationals, computably (`ratMin_eq_min` below equates it
with `min`). -/
def ratMin (a b : ℚ) : ℚ := if Rat.blt b a then b else a

/-- `Math.floor(d * f)` on rationals, computably (`jsFloorTimes_eq_floor`
below equates it with `⌊d * f⌋`). -/
def jsFloorTimes (d f : ℚ) : ℤ := (d.num * f.num) / ((d.den * f.den : ℕ) : ℤ)

structure TransportState where
  closedByUser : Bool
  reconnectDelay : ℚ
  lastMessageAt : Int
  /-- whether `this.ws` currently holds a socket -/
  hasWs : Bool
  /-- whether the idle `setInterval` is running -/
  idleTimerActive : Bool
  /-- number of scheduled, not yet fired, reconnect `setTimeout` callbacks -/
  pendingReconnects : Nat

/-- State established by the constructor (`reconnectDelay = reconnectDelayMs`). -/
def initTransportState (o : TransportOpts) : TransportState :=
  { closedByUser := false
    reconnectDelay := o.reconnectDelayMs
    lastMessageAt := 0
    hasWs := false
    idleTimerActive := false
    pendingReconnects := 0 }

/-- Events driving the transport: the public calls `connect()`/`close()`,
the underlying socket's `open`/`message`/`close` events, and the firing of a
scheduled reconnect callback (`ctorOk = false` models `new WS(...)` throwing
inside the callback's `try`). -/
inductive TEvent where
  | userConnect
  | userClose
  | socketOpen (now : Int)
  | socketMessage (now : Int)
  | socketClose
  | reconnectTimer (ctorOk : Bool)

inductive TAction where
  | openSocket
  | closeSocket
  | startIdle
  | stopIdle
  | emit (name : String)
  | emitDelay (name : String) (delay : ℚ)
  | scheduleReconnect (delay : ℚ)

/-- The delay update performed in the reconnect callback:
`Math.min(maxReconnectDelayMs, Math.floor(reconnectDelay * reconnectBackoffFactor))`
(see `growDelay_eq` below for the same expression through `min`/`⌊⌋`). -/
def growDelay (o : TransportOpts) (d : ℚ) : ℚ :=
  ratMin o.maxReconnectDelayMs (mkRat (jsFloorTimes d o.reconnectBackoffFactor) 1)

/-- One transition of `WebSocketTransport`, translated handler by handler. -/
def stepTransport (o : TransportOpts) (s : TransportState) :
    TEvent → TransportState × List TAction
  | .userConnect =>
    -- connect(): closedByUser = false; open()
    ({ s with closedByUser := false, hasWs := true }, [.openSocket])
  | .userClose =>
    -- close(): closedByUser = true; try ws?.close() finally ws = undefined, clearIdleCheck()
    ({ s with closedByUser := true, hasWs := false, idleTimerActive := false },
     (if s.hasWs then [TAction.closeSocket] else []) ++ [.stopIdle])
  | .socketOpen now =>
    -- handleOpen: lastMessageAt = now; scheduleIdleCheck(); reconnectDelay = base; emit "open"
    ({ s with lastMessageAt := now, idleTimerActive := true,
              reconnectDelay := o.reconnectDelayMs },
     [.startIdle, .emit "open"])
  | .socketMessage now =>
    -- handleMessage: lastMessageAt = now; emit "message"
    ({ s with lastMessageAt := now }, [.emit "message"])
  | .socketClose =>
    -- handleClose: clearIdleCheck(); emit "close"; if (!closedByUser && autoReconnect)
    --   { emit "reconnect_attempt" delay; setTimeout(..., reconnectDelay) }
    if !s.closedByUser && o.autoReconnect then
      ({ s with idleTimerActive := false,
                pendingReconnects := s.pendingReconnects + 1 },
       [.stopIdle, .emit "close", .emitDelay "reconnect_attempt" s.reconnectDelay,
        .scheduleReconnect s.reconnectDelay])
    else
      ({ s with idleTimerActive := false }, [.stopIdle, .emit "close"])
  | .reconnectTimer ctorOk =>
    -- the setTimeout callback; it can only fire while scheduled, and it never
    -- consults closedByUser:
    --   try { open(); emit "reconnected"; reconnectDelay = grow } catch { emit "reconnect_failed" }
    if s.pendingReconnects = 0 then (s, [])
    else if ctorOk then
      ({ s with pendingReconnects := s.pendingReconnects - 1, hasWs := true,
                reconnectDelay := growDelay o s.reconnectDelay },
       [.openSocket, .emit "reconnected"])
    else
      ({ s with pendingReconnects := s.pendingReconnects - 1 },
       [.emit "reconnect_failed"])

/-- Run a sequence of events, accumulating the actions. -/
def runTransport (o : TransportOpts) (s : TransportState) :
    List TEvent → TransportState × List TAction
  | [] => (s, [])
  | e :: es =>
    let (s1, a1) := stepTransport o s e
    let (s2, a2) := runTransport o s1 es
    (s2, a1 ++ a2)

/-- Final state of a run. -/
def runTransportState (o : TransportOpts) (s : TransportState)
    (evs : List TEvent) : TransportState :=
  (runTransport o s evs).1

/-- A state with the connection open and no reconnect pending (reached after
`connect()` and the socket `open` event). -/
def openTransportState (o : TransportOpts) : TransportState :=
  { closedByUser := false
    reconnectDelay := o.reconnectDelayMs
    lastMessageAt := 0
    hasWs := true
    idleTimerActive := true
    pendingReconnects := 0 }

/-- One "failed reconnect attempt" as observed at the socket level: the
scheduled callback fires (the socket constructor succeeds), and the new
socket then closes without ever reaching the `open` event. -/
def failCycle : List TEvent := [.reconnectTimer true, .socketClose]

/-- The event trace of an initial connection loss followed by `n` consecutive
failed reconnect attempts. -/
def failTrace (n : Nat) : List TEvent :=
  TEvent.socketClose :: (List.replicate n failCycle).flatten

/-! ## Connection registry (`AviaConnectorServer`, registry variant)

Embedding of the per-connection message handler installed in the
`connection` handler, together with `route`, `push`, `broadcast`, `sendTo`
and `safeSend`.  Observable effects are reified as `SAction`s; user-handler
invocation is the `dispatch`/`dispatchCtx` action (the code calls each
registered handler twice: once through `emit` with the payload only, and
once manually with `(payload, ctx)`). -/

structure ClientRec where
  authed : Bool
  /-- `Set<string>` of subscriptions in insertion order. -/
  subs : List String

structure ServerConfig where
  /-- `validateAuth?`: when present, called with the supplied credential and
  the connection metadata (here its id); connections start unauthenticated. -/
  validateAuth : Option (Nat → Option Json → Bool)
  /-- `autoPong ?? true` -/
  autoPong : Bool
  /-- Environment oracle: whether `ws.send` succeeds (`false` = the send
  throws and `safeSend`'s `catch` swallows it). -/
  sendOk : Nat → Json → Bool

structure ServerState where
  /-- `clients: Map<number, ClientRec>` as an association list in insertion
  order (map keys are the server-assigned ids, never reused). -/
  clients : List (Nat × ClientRec)
  simulatorConnected : Bool
  /-- `simulatorType: string | null` (`null` = `none`; the assigned value is
  kept as a `Json` since the source can store a non-string here). -/
  simulatorType : Option Json
  /-- Number of handlers registered for each event name
  (`this.listeners[t]?.size`). -/
  listenerCount : String → Nat

inductive SAction where
  /-- `safeSend` reached `ws.send` and it succeeded (the payload is the value
  passed to `JSON.stringify`). -/
  | send (id : Nat) (payload : Json)
  /-- `ws.send` threw; `safeSend` caught and logged the error. -/
  | sendFailed (id : Nat) (payload : Json)
  | closeSock (id : Nat) (code : Nat) (reason : String)
  /-- a user handler invoked through `emit` (payload only) -/
  | dispatch (event : String) (payload : Option Json)
  /-- a user handler invoked manually with `(payload, ctx)` -/
  | dispatchCtx (event : String) (payload : Option Json)

/-- `safeSend`: `try { ws.send(text) } catch (e) { console.error(...) }` —
a failing send is logged and swallowed, never propagated. -/
def safeSend (cfg : ServerConfig) (id : Nat) (payload : Json) : List SAction :=
  if cfg.sendOk id payload then [.send id payload] else [.sendFailed id payload]

def lookupClient : List (Nat × ClientRec) → Nat → Option ClientRec
  | [], _ => none
  | (k, r) :: rest, id => if k = id then some r else lookupClient rest id

/-- Replace the record stored under `id` (the closure mutates the record the
map already holds). -/
def setClient : List (Nat × ClientRec) → Nat → ClientRec → List (Nat × ClientRec)
  | [], _, _ => []
  | (k, r) :: rest, id, nr =>
    if k = id then (k, nr) :: rest else (k, r) :: setClient rest id nr

/-- `Set.add`: insertion order, no duplicates. -/
def subsAdd (l : List String) (s : String) : List String :=
  if s ∈ l then l else l ++ [s]

def statusEnv (msg : String) (now : Int) : Json :=
  .obj [("type", .str "status"), ("data", .obj [("message", .str msg)]), ("ts", .num now)]

def errorEnv (msg : String) (now : Int) : Json :=
  .obj [("type", .str "error"), ("data", .obj [("message", .str msg)]), ("ts", .num now)]

def pongEnv (ts : Json) : Json :=
  .obj [("type", .str "pong"), ("ts", ts)]

/-- Modelled from the spec: the `SimulatorStatusCodes` constants are imported
from `../types`, whose defining module is not under `src/`.  The spec calls
them the recognized producer-connected/disconnected codes; the repository's
quickstart documents them as `"600"`/`"601"`, matching the literals used by
the sibling implementation in `src/server/AviaConnectorServer.ts`. -/
def SimulatorStatusCodes.MSFS_CONNECTED : String := "600"

/-- Modelled from the spec: see `SimulatorStatusCodes.MSFS_CONNECTED`. -/
def SimulatorStatusCodes.MSFS_DISCONNECTED : String := "601"

/-- Whether `needle` occurs at the start of the second list. -/
def charsMatchAt : List Char → List Char → Bool
  | [], _ => true
  | _ :: _, [] => false
  | a :: as, b :: bs => a = b && charsMatchAt as bs

/-- `String.prototype.includes`: substring occurrence. -/
def charsHaveSub (needle : List Char) : List Char → Bool
  | [] => needle.isEmpty
  | c :: rest => charsMatchAt needle (c :: rest) || charsHaveSub needle rest

/-- `statusMessage?.includes("MSFS")`: optional chaining makes
`undefined`/`null` yield `undefined` (falsy); strings and arrays have an
`includes` method; other values make the call throw. -/
def jsIncludesMSFS : Option Json → Except String Bool
  | none => .ok false
  | some .null => .ok false
  | some (.str s) => .ok (charsHaveSub "MSFS".toList s.toList)
  | some (.arr xs) =>
    .ok (xs.any fun j => match j with | .str s => s = "MSFS" | _ => false)
  | some _ => .error "TypeError: statusMessage.includes is not a function"

/-- The status-code processing at the end of `route`'s `Status` block
(`statusCode === "600"` sets the flag and the simulator type computed from
`statusMessage?.includes("MSFS") ? "MSFS" : statusMessage || "unknown"`;
`statusCode === "601"` clears both; anything else is untouched). -/
def applyStatus (st : ServerState) (statusCode statusMessage : Option Json) :
    Except String ServerState :=
  if jsIsStrVal statusCode SimulatorStatusCodes.MSFS_CONNECTED then do
    let inc ← jsIncludesMSFS statusMessage
    let simType : Option Json :=
      if inc then some (.str "MSFS")
      else if jsTruthyOpt statusMessage then statusMessage
      else some (.str "unknown")
    pure { st with simulatorConnected := true, simulatorType := simType }
  else if jsIsStrVal statusCode SimulatorStatusCodes.MSFS_DISCONNECTED then
    pure { st with simulatorConnected := false, simulatorType := none }
  else
    pure st

def emitActions (st : ServerState) (ev : String) (payload : Option Json) : List SAction :=
  List.replicate (st.listenerCount ev) (.dispatch ev payload)

def dispatchCtxActions (st : ServerState) (ev : String) (payload : Option Json) :
    List SAction :=
  List.replicate (st.listenerCount ev) (.dispatchCtx ev payload)

/-- A JS object property whose value may be `undefined` is modelled as
`null`. -/
def optField (k : String) (v : Option Json) : String × Json :=
  (k, v.getD .null)

/-- The payload of the unhandled-message fallback:
`{ message: "unhandled message", type: env.type, data, clientId }`. -/
def unhandledPayload (t : Option Json) (data : Option Json) (clientId : Nat) : Json :=
  .obj [("message", .str "unhandled message"), optField "type" t,
        optField "data" data, ("clientId", .num clientId)]

/-- `route(env, ctx)`, translated line by line.  Note the `Status` block
reads `statusData.data.code` without a guard: when `env.data` is a non-null
object whose `data` member is `undefined` or `null` — which includes both
wire shapes documented in the block's own comment — the member access throws
a `TypeError`. -/
def RegistryServer.route (st : ServerState) (id : Nat) (env : Json) :
    Except String (ServerState × List SAction) := do
  let data := jsField env "data"
  let t := jsField env "type"
  let st1 ←
    if jsIsStrVal t "Status" then
      if jsIsObjectTruthy data then do
        let inner := jsFieldOpt data "data"
        let statusCode ← jsMemberE inner "code"
        let statusMessage0 ← jsMemberE inner "message"
        let statusMessage :=
          if jsFalsy statusMessage0 && jsIsString (jsField env "message") then
            jsField env "message"
          else statusMessage0
        applyStatus st statusCode statusMessage
      else
        -- statusCode and statusMessage stay undefined: no code matches
        pure st
    else pure st
  let key := jsKeyString t
  if st1.listenerCount key ≠ 0 then
    pure (st1, emitActions st1 key data ++ dispatchCtxActions st1 key data)
  else
    pure (st1, emitActions st1 "error" (some (unhandledPayload t data id)))

/-- Whether the envelope is a gated request: `env.type === "request"`, its
`data` is a non-null object, and `data.type` is one of the allow-listed
request kinds. -/
def isGatedRequest (env : Json) : Bool :=
  jsIsStrVal (jsField env "type") "request" && jsIsObjectTruthy (jsField env "data") &&
  (let rtype := jsFieldOpt (jsField env "data") "type"
   jsIsStrVal rtype "AircraftData" || jsIsStrVal rtype "Weather" ||
   jsIsStrVal rtype "Landing" || jsIsStrVal rtype "Airport")

/-- The credential extraction in the auth branch:
`(typeof env.data === "object" && env.data) ? env.data?.token ?? env.token : undefined`. -/
def authTokenOf (env : Json) : Option Json :=
  if jsIsObjectTruthy (jsField env "data") then
    jsCoalesce (jsFieldOpt (jsField env "data") "token") (jsField env "token")
  else none

/-- The `ws.on("message", ...)` closure body for the connection `id` holding
record `rec`, after `parseMessage` produced `env` (`now` is `Date.now()`). -/
def RegistryServer.handleClientMessage (cfg : ServerConfig) (st : ServerState)
    (id : Nat) (rec : ClientRec) (env : Json) (now : Int) :
    Except String (ServerState × List SAction) :=
  if !rec.authed then
    if jsIsStrVal (jsField env "type") "auth" then
      let token := authTokenOf env
      let ok := match cfg.validateAuth with
        | some validate => validate id token
        | none => false
      if ok then
        .ok (setClient st.clients id { rec with authed := true } |>
               fun cl => { st with clients := cl },
             safeSend cfg id (statusEnv "auth ok" now))
      else
        .ok (st, safeSend cfg id (errorEnv "auth failed" now) ++
                 [.closeSock id 1008 "auth failed"])
    else
      .ok (st, safeSend cfg id (errorEnv "unauthenticated" now))
  else if jsIsStrVal (jsField env "type") "subscribe" then
    let stream := jsFieldOpt (jsField env "data") "stream"
    let rec1 := match stream with
      | some (.str s) => { rec with subs := subsAdd rec.subs s }
      | _ => rec
    .ok ({ st with clients := setClient st.clients id rec1 },
         safeSend cfg id (statusEnv ("subscribed " ++ jsTemplate stream) now))
  else if jsIsStrVal (jsField env "type") "unsubscribe" then
    let stream := jsFieldOpt (jsField env "data") "stream"
    let rec1 := match stream with
      | some (.str s) => { rec with subs := rec.subs.erase s }
      | _ => rec
    .ok ({ st with clients := setClient st.clients id rec1 },
         safeSend cfg id (statusEnv ("unsubscribed " ++ jsTemplate stream) now))
  else if jsIsStrVal (jsField env "type") "ping" && cfg.autoPong then
    .ok (st, safeSend cfg id
          (pongEnv ((jsCoalesce (jsField env "ts") (some (.num now))).getD .null)))
  else if isGatedRequest env && !st.simulatorConnected then
    .ok (st, safeSend cfg id (errorEnv "Simulator isnt connected" now))
  else
    RegistryServer.route st id env

/-- Message arrival for connection `id`: the installed closure runs only
while the connection's handler is alive. -/
def RegistryServer.onMessage (cfg : ServerConfig) (st : ServerState)
    (id : Nat) (env : Json) (now : Int) :
    Except String (ServerState × List SAction) :=
  match lookupClient st.clients id with
  | some rec => RegistryServer.handleClientMessage cfg st id rec env now
  | none => .ok (st, [])

/-- `push(event, data)`: stringify `{type, ts, data}` once, then send it to
exactly the clients whose subscription set has `event`. -/
def pushEnvelope (event : String) (now : Int) (data : Json) : Json :=
  .obj [("type", .str event), ("ts", .num now), ("data", data)]

def RegistryServer.push (cfg : ServerConfig) (st : ServerState)
    (event : String) (data : Json) (now : Int) : List SAction :=
  (st.clients.filter fun c => c.2.subs.contains event).flatMap
    fun c => safeSend cfg c.1 (pushEnvelope event now data)

/-- `broadcast(payload)`: send to every client, no subscription check. -/
def RegistryServer.broadcast (cfg : ServerConfig) (st : ServerState)
    (payload : Json) : List SAction :=
  st.clients.flatMap fun c => safeSend cfg c.1 payload

/-- `sendTo(clientId, payload)`: no-op when the id is not tracked; otherwise
a `safeSend` to that client. -/
def RegistryServer.sendTo (cfg : ServerConfig) (st : ServerState)
    (clientId : Nat) (payload : Json) : List SAction :=
  match lookupClient st.clients clientId with
  | some _ => safeSend cfg clientId payload
  | none => []

/-! ## Simplified single-client server (`src/server/AviaConnectorServer.ts`) -/

inductive CAction where
  | closeClient (sock : Nat) (code : Nat) (reason : String)
  | connectionCallback
  | disconnectCallback

structure SimpleServerState where
  /-- `private client?: WebSocket` — sockets identified by number. -/
  client : Option Nat

/-- The `wss.on("connection", ...)` handler: evict any existing client with
code 1000, then track the new socket. -/
def SimpleServer.onConnection (st : SimpleServerState) (sock : Nat) :
    SimpleServerState × List CAction :=
  let evict := match st.client with
    | some old => [CAction.closeClient old 1000 "New client connected"]
    | none => []
  ({ client := some sock }, evict ++ [.connectionCallback])

/-- The per-socket `ws.on("close", ...)` handler: only the currently tracked
socket clears the slot and fires `onDisconnect`. -/
def SimpleServer.onSocketClose (st : SimpleServerState) (sock : Nat) :
    SimpleServerState × List CAction :=
  if st.client = some sock then ({ client := none }, [.disconnectCallback])
  else (st, [])

/-! ## Concrete fixtures used by the witnesses and counterexamples -/

/-- A registry configuration with no auth policy, auto-pong on, and a
working socket. -/
def sampleCfg : ServerConfig :=
  { validateAuth := none, autoPong := true, sendOk := fun _ _ => true }

/-- A registry configuration whose auth validator accepts exactly the token
`"secret"`. -/
def sampleAuthCfg : ServerConfig :=
  { validateAuth := some fun _ token =>
      match token with
      | some (.str s) => s = "secret"
      | _ => false
    autoPong := true
    sendOk := fun _ _ => true }

/-- One authenticated client (id 1), simulator not connected, one handler
registered for `"request"`. -/
def sampleGatedState : ServerState :=
  { clients := [(1, { authed := true, subs := [] })]
    simulatorConnected := false
    simulatorType := none
    listenerCount := fun s => if s = "request" then 1 else 0 }

/-- A gated request envelope: `{type:"request", data:{type:"AircraftData"}}`. -/
def sampleGatedEnv : Json :=
  .obj [("type", .str "request"), ("data", .obj [("type", .str "AircraftData")])]

/-- One authenticated client (id 1), one handler registered for `"Status"`. -/
def sampleStatusState : ServerState :=
  { clients := [(1, { authed := true, subs := [] })]
    simulatorConnected := false
    simulatorType := none
    listenerCount := fun s => if s = "Status" then 1 else 0 }

/-- Documented wire shape 1:
`{ "type": "Status", "data": { "code": "600", "message": "MSFS" } }`. -/
def statusEnvShape1 : Json :=
  .obj [("type", .str "Status"),
        ("data", .obj [("code", .str "600"), ("message", .str "MSFS")])]

/-- Documented wire shape 2:
`{ "type": "Status", "data": { "code": "600" }, "message": "MSFS Connected" }`. -/
def statusEnvShape2 : Json :=
  .obj [("type", .str "Status"), ("data", .obj [("code", .str "600")]),
        ("message", .str "MSFS Connected")]

/-- The only shape the `Status` block survives: a doubly nested
`{ "type": "Status", "data": { "data": { "code": "600", "message": "MSFS" } } }`. -/
def statusEnvNested : Json :=
  .obj [("type", .str "Status"),
        ("data", .obj [("data", .obj [("code", .str "600"), ("message", .str "MSFS")])])]

/-- One unauthenticated client (id 1). -/
def sampleUnauthState : ServerState :=
  { clients := [(1, { authed := false, subs := [] })]
    simulatorConnected := false
    simulatorType := none
    listenerCount := fun _ => 0 }

/-- An auth attempt with a credential the validator rejects:
`{type:"auth", data:{token:"wrong"}}`. -/
def sampleBadAuthEnv : Json :=
  .obj [("type", .str "auth"), ("data", .obj [("token", .str "wrong")])]

/-- One authenticated client (id 1); handlers registered for `"unhandled"`
and `"error"` but not for `"zzz"`. -/
def sampleFallbackState : ServerState :=
  { clients := [(1, { authed := true, subs := [] })]
    simulatorConnected := true
    simulatorType := none
    listenerCount := fun s => if s = "unhandled" then 1 else if s = "error" then 1 else 0 }

/-- An envelope of a type nobody registered a handler for. -/
def sampleFallbackEnv : Json :=
  .obj [("type", .str "zzz"), ("data", .obj [("k", .num 1)])]

/-- A registry with no clients at all. -/
def emptyServerState : ServerState :=
  { clients := []
    simulatorConnected := false
    simulatorType := none
    listenerCount := fun _ => 0 }

/-- Transport options with base delay 7 ms, maximum 15000 ms, backoff factor
1.8 — a base for which per-step flooring is observable. -/
def transportOpts7 : TransportOpts :=
  { autoReconnect := true
    reconnectDelayMs := mkRat 7 1
    maxReconnectDelayMs := mkRat 15000 1
    reconnectBackoffFactor := mkRat 9 5
    idleTimeoutMs := mkRat 30000 1 }

/-- `connect()`, socket opens, socket drops (scheduling a reconnect), then
the user calls `close()`. -/
def preCloseTrace : List TEvent :=
  [.userConnect, .socketOpen 0, .socketClose, .userClose]

/-- The state right after `close()` returns in `preCloseTrace`. -/
def postCloseState : TransportState :=
  runTransportState TransportOpts.defaults (initTransportState TransportOpts.defaults)
    preCloseTrace

/-! # Theorems

First some helper lemmas; the claim theorems follow, one per claim, each
with its witness / counterexample where applicable. -/

/-- The computable `ratMin` is `min` on `ℚ`. -/
theorem ratMin_eq_min (a b : ℚ) : ratMin a b = min a b := by
  unfold ratMin
  rcases lt_or_ge b a with h | h
  · have hb : Rat.blt b a = true := h
    rw [hb, if_pos rfl, min_eq_right h.le]
  · have hb : Rat.blt b a = false := by
      by_contra hc
      exact absurd (Bool.not_eq_false (Rat.blt b a) |>.mp hc : b < a) (not_lt.mpr h)
    rw [hb]
    simp [min_eq_left h]

/-- The computable `jsFloorTimes` is `⌊d * f⌋`. -/
theorem jsFloorTimes_eq_floor (d f : ℚ) : jsFloorTimes d f = Int.floor (d * f) := by
  rw [Rat.mul_eq_mkRat, Rat.mkRat_eq_divInt, Rat.divInt_eq_div, Int.cast_natCast,
      Rat.floor_intCast_div_natCast]
  rfl

/-- `growDelay` is exactly the source expression
`Math.min(maxReconnectDelayMs, Math.floor(reconnectDelay * reconnectBackoffFactor))`. -/
theorem growDelay_eq (o : TransportOpts) (d : ℚ) :
    growDelay o d
      = min o.maxReconnectDelayMs ((⌊d * o.reconnectBackoffFactor⌋ : ℤ) : ℚ) := by
  unfold growDelay
  rw [ratMin_eq_min, jsFloorTimes_eq_floor, Rat.mkRat_one]

theorem runTransportState_cons (o : TransportOpts) (s : TransportState)
    (e : TEvent) (es : List TEvent) :
    runTransportState o s (e :: es)
      = runTransportState o (stepTransport o s e).1 es := by
  simp [runTransportState, runTransport]

theorem runTransportState_append (o : TransportOpts) (s : TransportState)
    (l1 l2 : List TEvent) :
    runTransportState o s (l1 ++ l2)
      = runTransportState o (runTransportState o s l1) l2 := by
  induction l1 generalizing s with
  | nil => simp [runTransportState, runTransport]
  | cons e es ih =>
    rw [List.cons_append, runTransportState_cons, runTransportState_cons, ih]

/-- Effect of one failed reconnect attempt: the user-close flag stays clear,
a reconnect stays scheduled, and the delay grows once. -/
theorem failCycle_effect (o : TransportOpts) (hA : o.autoReconnect = true)
    (s : TransportState) (hc : s.closedByUser = false)
    (hp : 1 ≤ s.pendingReconnects) :
    (runTransportState o s failCycle).closedByUser = false
    ∧ 1 ≤ (runTransportState o s failCycle).pendingReconnects
    ∧ (runTransportState o s failCycle).reconnectDelay = growDelay o s.reconnectDelay := by
  have hp0 : ¬ s.pendingReconnects = 0 := by omega
  simp only [failCycle, runTransportState_cons, stepTransport, hp0, if_false,
    if_true, runTransportState, runTransport, hc, hA]
  simp

theorem cyclesTrace_effect (o : TransportOpts) (hA : o.autoReconnect = true) :
    ∀ (N : ℕ) (s : TransportState), s.closedByUser = false →
      1 ≤ s.pendingReconnects →
      (runTransportState o s (List.replicate N failCycle).flatten).closedByUser = false
      ∧ 1 ≤ (runTransportState o s (List.replicate N failCycle).flatten).pendingReconnects
      ∧ (runTransportState o s (List.replicate N failCycle).flatten).reconnectDelay
          = (growDelay o)^[N] s.reconnectDelay := by
  intro N
  induction N with
  | zero =>
    intro s hc hp
    simp [runTransportState, runTransport, hc, hp]
  | succ n ih =>
    intro s hc hp
    rw [List.replicate_succ, List.flatten_cons, runTransportState_append]
    obtain ⟨h1, h2, h3⟩ := failCycle_effect o hA s hc hp
    obtain ⟨g1, g2, g3⟩ := ih (runTransportState o s failCycle) h1 h2
    refine ⟨g1, g2, ?_⟩
    rw [g3, h3, Function.iterate_succ_apply]

/-- C1 (code bug): after `connect()`, socket `open`, a socket `close` (which
schedules a reconnect), and then a user `close()`: the user-close flag is
set and the idle watchdog is cancelled, but the already-scheduled reconnect
callback is still pending — `close()` stores no timer handle and cancels
nothing — and when it fires it unconditionally reopens the underlying
socket and even emits `reconnected`. -/
theorem c1_close_then_reconnect_reopens :
    postCloseState.closedByUser = true
    ∧ postCloseState.idleTimerActive = false
    ∧ postCloseState.pendingReconnects = 1
    ∧ (stepTransport TransportOpts.defaults postCloseState (.reconnectTimer true)).1.hasWs
        = true
    ∧ (stepTransport TransportOpts.defaults postCloseState (.reconnectTimer true)).2
        = [.openSocket, .emit "reconnected"] :=
  ⟨by decide, by decide, by decide, by decide, rfl⟩

/-- C2 (amended): with auto-reconnect enabled, after `N` consecutive failed
reconnect attempts the next scheduled delay is the `N`-fold iterate of
`d ↦ min(max_delay, ⌊d·factor⌋)` starting from the current delay — the
factor multiplies the already-floored previous delay, not `base·factor^N`.
A socket close with the user-close flag clear schedules a reconnect
carrying the current delay; a successful socket `open` resets the delay to
the base delay; and one growth step is exactly
`Math.min(max, Math.floor(d·factor))`. -/
theorem c2_backoff_recurrence (o : TransportOpts) (hA : o.autoReconnect = true)
    (N : ℕ) (s : TransportState) (hc : s.closedByUser = false)
    (s1 : TransportState) (hc1 : s1.closedByUser = false)
    (s2 : TransportState) (now : Int) :
    (runTransportState o s (failTrace N)).reconnectDelay
        = (growDelay o)^[N] s.reconnectDelay
    ∧ TAction.scheduleReconnect s1.reconnectDelay ∈ (stepTransport o s1 .socketClose).2
    ∧ (stepTransport o s2 (.socketOpen now)).1.reconnectDelay = o.reconnectDelayMs
    ∧ growDelay o s2.reconnectDelay
        = min o.maxReconnectDelayMs
            ((⌊s2.reconnectDelay * o.reconnectBackoffFactor⌋ : ℤ) : ℚ) := by
  refine ⟨?_, ?_, ?_, growDelay_eq o s2.reconnectDelay⟩
  · rw [failTrace, runTransportState_cons]
    have hstep : (stepTransport o s .socketClose).1
        = { s with idleTimerActive := false,
                   pendingReconnects := s.pendingReconnects + 1 } := by
      simp [stepTransport, hc, hA]
    rw [hstep]
    have h := cyclesTrace_effect o hA N
      { s with idleTimerActive := false, pendingReconnects := s.pendingReconnects + 1 }
      (by simpa using hc) (by simp)
    simpa using h.2.2
  · simp [stepTransport, hc1, hA]
  · simp [stepTransport]

/-- Witness for `c2_backoff_recurrence` at base 7 ms, factor 1.8, two failed
attempts. -/
theorem c2_backoff_recurrence_witness :
    (runTransportState transportOpts7 (openTransportState transportOpts7) (failTrace 2)).reconnectDelay
        = (growDelay transportOpts7)^[2] (openTransportState transportOpts7).reconnectDelay
    ∧ TAction.scheduleReconnect (openTransportState transportOpts7).reconnectDelay
        ∈ (stepTransport transportOpts7 (openTransportState transportOpts7) .socketClose).2
    ∧ (stepTransport transportOpts7 (openTransportState transportOpts7)
        (.socketOpen 0)).1.reconnectDelay = transportOpts7.reconnectDelayMs
    ∧ growDelay transportOpts7 (openTransportState transportOpts7).reconnectDelay
        = min transportOpts7.maxReconnectDelayMs
            ((⌊(openTransportState transportOpts7).reconnectDelay
                * transportOpts7.reconnectBackoffFactor⌋ : ℤ) : ℚ) :=
  c2_backoff_recurrence transportOpts7 rfl 2 _ rfl _ rfl _ 0

/-- C2 counterexample to the claim as stated: with base 7 ms, factor 1.8 and
maximum 15000 ms, after two failed attempts the scheduled delay is 21 ms
(`⌊⌊7·1.8⌋·1.8⌋`), while `min(max, base·factor²)` is 567/25 = 22.68 ms. -/
theorem c2_formula_counterexample :
    (runTransportState transportOpts7 (openTransportState transportOpts7)
        (failTrace 2)).reconnectDelay = mkRat 21 1
    ∧ (runTransportState transportOpts7 (openTransportState transportOpts7)
        (failTrace 2)).reconnectDelay
        ≠ min transportOpts7.maxReconnectDelayMs
            (transportOpts7.reconnectDelayMs * transportOpts7.reconnectBackoffFactor ^ 2) := by
  have h21run : (runTransportState transportOpts7 (openTransportState transportOpts7)
      (failTrace 2)).reconnectDelay = mkRat 21 1 := by decide
  refine ⟨h21run, ?_⟩
  rw [h21run]
  have hmax : transportOpts7.maxReconnectDelayMs = (15000 : ℚ) := by
    show (mkRat 15000 1 : ℚ) = 15000
    rw [Rat.mkRat_one]; norm_num
  have hbase : transportOpts7.reconnectDelayMs = (7 : ℚ) := by
    show (mkRat 7 1 : ℚ) = 7
    rw [Rat.mkRat_one]; norm_num
  have hfac : transportOpts7.reconnectBackoffFactor = (9 : ℚ) / 5 := by
    show (mkRat 9 5 : ℚ) = 9 / 5
    rw [Rat.mkRat_eq_divInt, Rat.divInt_eq_div]; norm_num
  have h21 : (mkRat 21 1 : ℚ) = 21 := by
    rw [Rat.mkRat_one]; norm_num
  rw [hmax, hbase, hfac, h21]
  have hv : (7 : ℚ) * ((9 : ℚ) / 5) ^ 2 = 567 / 25 := by norm_num
  rw [hv, min_eq_right (by norm_num : (567 / 25 : ℚ) ≤ 15000)]
  norm_num

/-- C3 (amended): decode is total over every frame shape and every outcome
of `JSON.parse`: a parse producing a truthy value with a string `type` field
is returned verbatim by both decoders; otherwise the best-effort parsed
value — or, on parse failure, the original text — is wrapped as `data`
under the reserved fallback type, which is `"raw"` for `defaultParseMessage`
but `"unknown"` for the simplified server's `parseMessage`. -/
theorem c3_decode_total (jsonParse : String → Option Json)
    (utf8 : List Nat → String) (raw : RawData) :
    (∃ j, jsonParse (rawToString utf8 raw) = some j ∧ isEnvelopeShaped j = true
       ∧ defaultParseMessage jsonParse utf8 raw = j
       ∧ SimpleServer.parseMessage jsonParse utf8 raw = j)
    ∨ (∃ j, jsonParse (rawToString utf8 raw) = some j ∧ isEnvelopeShaped j = false
       ∧ defaultParseMessage jsonParse utf8 raw
           = Json.obj [("type", .str "raw"), ("data", j)]
       ∧ SimpleServer.parseMessage jsonParse utf8 raw
           = Json.obj [("type", .str "unknown"), ("data", j)])
    ∨ (jsonParse (rawToString utf8 raw) = none
       ∧ defaultParseMessage jsonParse utf8 raw
           = Json.obj [("type", .str "raw"), ("data", .str (rawToString utf8 raw))]
       ∧ SimpleServer.parseMessage jsonParse utf8 raw
           = Json.obj [("type", .str "unknown"), ("data", .str (rawToString utf8 raw))]) := by
  rcases hp : jsonParse (rawToString utf8 raw) with _ | j
  · right; right
    exact ⟨rfl, by simp [defaultParseMessage, hp], by simp [SimpleServer.parseMessage, hp]⟩
  · by_cases hs : isEnvelopeShaped j = true
    · left
      exact ⟨j, rfl, hs, by simp [defaultParseMessage, hp, hs],
             by simp [SimpleServer.parseMessage, hp, hs]⟩
    · right; left
      have hs' : isEnvelopeShaped j = false := by simpa using hs
      exact ⟨j, rfl, hs', by simp [defaultParseMessage, hp, hs'],
             by simp [SimpleServer.parseMessage, hp, hs']⟩

/-- C3 counterexample to the claim as stated: on a malformed text frame the
simplified server's decoder produces the reserved type `"unknown"`, not
`"raw"`. -/
theorem c3_fallback_not_raw_counterexample :
    jsonReadConcrete "hello" = none
    ∧ SimpleServer.parseMessage jsonReadConcrete asciiDecode (.text "hello")
        = Json.obj [("type", .str "unknown"), ("data", .str "hello")]
    ∧ jsField (SimpleServer.parseMessage jsonReadConcrete asciiDecode (.text "hello")) "type"
        ≠ some (Json.str "raw") := by
  refine ⟨rfl, rfl, ?_⟩
  intro h
  rw [show jsField (SimpleServer.parseMessage jsonReadConcrete asciiDecode (.text "hello"))
        "type" = some (Json.str "unknown") from rfl] at h
  injection h with h1
  injection h1 with h2
  exact absurd h2 (by decide)

/-- A value strictly equal to one string literal is not strictly equal to a
different one. -/
theorem jsIsStrVal_unique {v : Option Json} {s t : String}
    (h : jsIsStrVal v s = true) (hne : s ≠ t) : jsIsStrVal v t = false := by
  rcases v with _ | j
  · simp [jsIsStrVal] at h
  · rcases j with _ | b | n | u | xs | fs <;> simp [jsIsStrVal] at h ⊢
    intro hut
    rw [h] at hut
    exact hne hut

/-- C4 (amended): an authenticated connection sending an allow-listed gated
request while the simulator-liveness flag is false gets exactly one error
envelope back — whose message is `"Simulator isnt connected"` — the state is
unchanged, and nothing is dispatched to user handlers. -/
theorem c4_gate_blocks_requests (cfg : ServerConfig) (st : ServerState)
    (id : Nat) (rec : ClientRec) (env : Json) (now : Int)
    (hlook : lookupClient st.clients id = some rec)
    (hauth : rec.authed = true)
    (hgated : isGatedRequest env = true)
    (hsim : st.simulatorConnected = false) :
    RegistryServer.onMessage cfg st id env now
      = .ok (st, safeSend cfg id (errorEnv "Simulator isnt connected" now)) := by
  have hreq : jsIsStrVal (jsField env "type") "request" = true := by
    unfold isGatedRequest at hgated
    simp only [Bool.and_eq_true] at hgated
    exact hgated.1.1
  have hsub : jsIsStrVal (jsField env "type") "subscribe" = false :=
    jsIsStrVal_unique hreq (by decide)
  have huns : jsIsStrVal (jsField env "type") "unsubscribe" = false :=
    jsIsStrVal_unique hreq (by decide)
  have hping : jsIsStrVal (jsField env "type") "ping" = false :=
    jsIsStrVal_unique hreq (by decide)
  have hath : jsIsStrVal (jsField env "type") "auth" = false :=
    jsIsStrVal_unique hreq (by decide)
  unfold RegistryServer.onMessage
  rw [hlook]
  unfold RegistryServer.handleClientMessage
  simp [hauth, hsub, huns, hping, hath, hgated, hsim]

/-- Witness for `c4_gate_blocks_requests` on the concrete gated fixture. -/
theorem c4_gate_blocks_requests_witness :
    RegistryServer.onMessage sampleCfg sampleGatedState 1 sampleGatedEnv 5
      = .ok (sampleGatedState, safeSend sampleCfg 1 (errorEnv "Simulator isnt connected" 5)) :=
  c4_gate_blocks_requests sampleCfg sampleGatedState 1
    { authed := true, subs := [] } sampleGatedEnv 5 rfl rfl rfl rfl

/-- C4 counterexample to the claim as stated: the single error envelope sent
back carries the message `"Simulator isnt connected"`, not
`"upstream not connected"`. -/
theorem c4_gate_message_counterexample :
    RegistryServer.onMessage sampleCfg sampleGatedState 1 sampleGatedEnv 0
      = .ok (sampleGatedState, [.send 1 (errorEnv "Simulator isnt connected" 0)])
    ∧ jsFieldOpt (jsField (errorEnv "Simulator isnt connected" 0) "data") "message"
        = some (.str "Simulator isnt connected")
    ∧ some (Json.str "Simulator isnt connected") ≠ some (Json.str "upstream not connected") := by
  refine ⟨rfl, rfl, ?_⟩
  intro h
  injection h with h1
  injection h1 with h2
  exact absurd h2 (by decide)

/-- C5 (code bug): the registry's own comment documents two `Status` wire
shapes, but the unguarded `statusData.data.code` member access throws a
`TypeError` on both of them; the liveness flag only flips on an
*undocumented* doubly nested shape. -/
theorem c5_status_shape_throws :
    sampleStatusState.simulatorConnected = false
    ∧ RegistryServer.onMessage sampleCfg sampleStatusState 1 statusEnvShape1 0
        = .error "TypeError: cannot read properties of undefined"
    ∧ RegistryServer.onMessage sampleCfg sampleStatusState 1 statusEnvShape2 0
        = .error "TypeError: cannot read properties of undefined"
    ∧ (RegistryServer.onMessage sampleCfg sampleStatusState 1 statusEnvNested 0).toOption.map
        (fun r => r.1.simulatorConnected) = some true :=
  ⟨rfl, rfl, rfl, rfl⟩

/-- C6: before authentication, any non-`auth` envelope gets exactly one
`"unauthenticated"` error envelope and nothing reaches user handlers; a
rejected `auth` attempt gets an `"auth failed"` error envelope and the
socket is closed with the policy-violation code 1008. -/
theorem c6_unauthenticated_gate (cfg : ServerConfig) (st : ServerState)
    (id : Nat) (rec : ClientRec) (env : Json) (now : Int)
    (hlook : lookupClient st.clients id = some rec)
    (hunauth : rec.authed = false) :
    (jsIsStrVal (jsField env "type") "auth" = false →
      RegistryServer.onMessage cfg st id env now
        = .ok (st, safeSend cfg id (errorEnv "unauthenticated" now)))
    ∧ (∀ validate, cfg.validateAuth = some validate →
        validate id (authTokenOf env) = false →
        jsIsStrVal (jsField env "type") "auth" = true →
        RegistryServer.onMessage cfg st id env now
          = .ok (st, safeSend cfg id (errorEnv "auth failed" now)
                     ++ [.closeSock id 1008 "auth failed"])) := by
  constructor
  · intro hnotauth
    unfold RegistryServer.onMessage
    rw [hlook]
    unfold RegistryServer.handleClientMessage
    simp [hunauth, hnotauth]
  · intro validate hv hfail hisauth
    unfold RegistryServer.onMessage
    rw [hlook]
    unfold RegistryServer.handleClientMessage
    simp [hunauth, hisauth, hv, hfail]

/-- Witness for `c6_unauthenticated_gate`: a gated request before auth is
rejected with `"unauthenticated"`, and a wrong token is rejected with
`"auth failed"` plus a close with code 1008. -/
theorem c6_unauthenticated_gate_witness :
    RegistryServer.onMessage sampleAuthCfg sampleUnauthState 1 sampleGatedEnv 3
      = .ok (sampleUnauthState, safeSend sampleAuthCfg 1 (errorEnv "unauthenticated" 3))
    ∧ RegistryServer.onMessage sampleAuthCfg sampleUnauthState 1 sampleBadAuthEnv 3
      = .ok (sampleUnauthState, safeSend sampleAuthCfg 1 (errorEnv "auth failed" 3)
             ++ [.closeSock 1 1008 "auth failed"]) :=
  ⟨(c6_unauthenticated_gate sampleAuthCfg sampleUnauthState 1
      { authed := false, subs := [] } sampleGatedEnv 3 rfl rfl).1 rfl,
   (c6_unauthenticated_gate sampleAuthCfg sampleUnauthState 1
      { authed := false, subs := [] } sampleBadAuthEnv 3 rfl rfl).2
     (fun _ token => match token with | some (.str s) => s = "secret" | _ => false)
     rfl rfl rfl⟩

/-- C7: `push` attempts delivery of the `{type, ts, data}` envelope to
exactly the tracked connections whose subscription set has the event (a
successful `ws.send` for those whose socket accepts it), and to no other
connection; `broadcast` attempts delivery to every tracked connection
regardless of subscriptions. -/
theorem c7_push_broadcast_targets (cfg : ServerConfig) (st : ServerState)
    (event : String) (data : Json) (now : Int) (id : Nat) (payload : Json) :
    (SAction.send id (pushEnvelope event now data) ∈ RegistryServer.push cfg st event data now
       ↔ cfg.sendOk id (pushEnvelope event now data) = true
         ∧ ∃ rec, (id, rec) ∈ st.clients ∧ rec.subs.contains event = true)
    ∧ (SAction.send id payload ∈ RegistryServer.broadcast cfg st payload
       ↔ cfg.sendOk id payload = true ∧ ∃ rec, (id, rec) ∈ st.clients) := by
  constructor
  · unfold RegistryServer.push
    rw [List.mem_flatMap]
    constructor
    · rintro ⟨c, hc, hmem⟩
      rw [List.mem_filter] at hc
      unfold safeSend at hmem
      by_cases hok : cfg.sendOk c.1 (pushEnvelope event now data) = true
      · rw [if_pos hok] at hmem
        simp only [List.mem_singleton, SAction.send.injEq] at hmem
        obtain ⟨hid, -⟩ := hmem
        subst hid
        exact ⟨hok, c.2, by simpa using hc.1, hc.2⟩
      · rw [if_neg hok] at hmem
        simp at hmem
    · rintro ⟨hok, rec, hmem, hsubs⟩
      refine ⟨(id, rec), List.mem_filter.mpr ⟨hmem, hsubs⟩, ?_⟩
      unfold safeSend
      rw [if_pos hok]
      simp
  · unfold RegistryServer.broadcast
    rw [List.mem_flatMap]
    constructor
    · rintro ⟨c, hc, hmem⟩
      unfold safeSend at hmem
      by_cases hok : cfg.sendOk c.1 payload = true
      · rw [if_pos hok] at hmem
        simp only [List.mem_singleton, SAction.send.injEq] at hmem
        obtain ⟨hid, -⟩ := hmem
        subst hid
        exact ⟨hok, c.2, by simpa using hc⟩
      · rw [if_neg hok] at hmem
        simp at hmem
    · rintro ⟨hok, rec, hmem⟩
      refine ⟨(id, rec), hmem, ?_⟩
      unfold safeSend
      rw [if_pos hok]
      simp

/-- C8 (amended): an envelope whose type has no registered handler is not
dropped on the floor by `route`: it is re-emitted on the `"error"` listener
set with the payload `{message: "unhandled message", type, data, clientId}`
(the state is untouched). -/
theorem c8_unhandled_goes_to_error_emit (st : ServerState) (id : Nat)
    (env : Json) (t : String)
    (ht : jsField env "type" = some (.str t))
    (hnotstatus : t ≠ "Status")
    (hnone : st.listenerCount t = 0) :
    RegistryServer.route st id env
      = .ok (st, emitActions st "error"
          (some (unhandledPayload (jsField env "type") (jsField env "data") id))) := by
  have hs : jsIsStrVal (jsField env "type") "Status" = false := by
    rw [ht]
    simp [jsIsStrVal, hnotstatus]
  have hkey : jsKeyString (jsField env "type") = t := by
    rw [ht]
    simp [jsKeyString, jsToDisplay]
  unfold RegistryServer.route
  simp [hs, hkey, hnone, pure_bind]
  rfl

/-- Witness for `c8_unhandled_goes_to_error_emit` on the concrete fixture
(one `"error"` listener registered, none for `"zzz"`). -/
theorem c8_unhandled_goes_to_error_emit_witness :
    RegistryServer.route sampleFallbackState 1 sampleFallbackEnv
      = .ok (sampleFallbackState, emitActions sampleFallbackState "error"
          (some (unhandledPayload (jsField sampleFallbackEnv "type")
                 (jsField sampleFallbackEnv "data") 1))) :=
  c8_unhandled_goes_to_error_emit sampleFallbackState 1 sampleFallbackEnv "zzz"
    rfl (by decide) rfl

/-- C8 counterexample to the claim as stated: the fallback is emitted on the
`"error"` listener set — even with a listener registered under the name
`"unhandled"`, no `"unhandled"` event is dispatched. -/
theorem c8_fallback_named_error_counterexample :
    RegistryServer.onMessage sampleCfg sampleFallbackState 1 sampleFallbackEnv 0
      = .ok (sampleFallbackState,
          [.dispatch "error" (some (unhandledPayload (some (.str "zzz"))
              (some (.obj [("k", .num 1)])) 1))])
    ∧ "error" ≠ "unhandled" :=
  ⟨rfl, by decide⟩

/-- C9: `sendTo` never surfaces an error to the caller: an untracked id is a
pure no-op, and otherwise the single underlying `ws.send` either succeeds or
its exception is caught and logged — the three cases are exhaustive. -/
theorem c9_sendTo_no_raise (cfg : ServerConfig) (st : ServerState)
    (id : Nat) (payload : Json) :
    (lookupClient st.clients id = none → RegistryServer.sendTo cfg st id payload = [])
    ∧ (RegistryServer.sendTo cfg st id payload = []
       ∨ RegistryServer.sendTo cfg st id payload = [.send id payload]
       ∨ RegistryServer.sendTo cfg st id payload = [.sendFailed id payload]) := by
  constructor
  · intro h
    unfold RegistryServer.sendTo
    rw [h]
  · unfold RegistryServer.sendTo
    cases hl : lookupClient st.clients id with
    | none => left; rfl
    | some rec =>
      unfold safeSend
      by_cases hok : cfg.sendOk id payload = true
      · right; left; rw [if_pos hok]
      · right; right; rw [if_neg hok]

/-- Witness for `c9_sendTo_no_raise`: sending to an id the registry does not
track is a no-op. -/
theorem c9_sendTo_no_raise_witness :
    RegistryServer.sendTo sampleCfg emptyServerState 5 (Json.str "x") = [] :=
  (c9_sendTo_no_raise sampleCfg emptyServerState 5 (Json.str "x")).1 rfl

/-- C10: the simplified server tracks at most one client (an `Option`-typed
slot): accepting a connection while one is tracked closes the old client
with code 1000 and the new socket becomes the sole tracked client; a close
event from a socket that is not the tracked client changes nothing and
fires no disconnect callback, while a close from the tracked client clears
the slot and fires it. -/
theorem c10_single_client_eviction
    (stA : SimpleServerState) (old sockA : Nat) (hA : stA.client = some old)
    (stB : SimpleServerState) (sockB : Nat) (hB : stB.client ≠ some sockB)
    (stC : SimpleServerState) (sockC : Nat) (hC : stC.client = some sockC) :
    SimpleServer.onConnection stA sockA
        = ({ client := some sockA },
           [.closeClient old 1000 "New client connected", .connectionCallback])
    ∧ SimpleServer.onSocketClose stB sockB = (stB, [])
    ∧ SimpleServer.onSocketClose stC sockC = ({ client := none }, [.disconnectCallback]) := by
  refine ⟨?_, ?_, ?_⟩
  · simp [SimpleServer.onConnection, hA]
  · simp [SimpleServer.onSocketClose, hB]
  · simp [SimpleServer.onSocketClose, hC]

/-- Witness for `c10_single_client_eviction` at concrete socket numbers. -/
theorem c10_single_client_eviction_witness :
    SimpleServer.onConnection ⟨some 1⟩ 2
        = (⟨some 2⟩, [.closeClient 1 1000 "New client connected", .connectionCallback])
    ∧ SimpleServer.onSocketClose ⟨some 3⟩ 4 = (⟨some 3⟩, [])
    ∧ SimpleServer.onSocketClose ⟨some 5⟩ 5 = (⟨none⟩, [.disconnectCallback]) :=
  c10_single_client_eviction ⟨some 1⟩ 1 2 rfl ⟨some 3⟩ 4 (by simp) ⟨some 5⟩ 5 rfl
